import Mathlib

/-!
Verification development for `lib/rconn.c`, the reliable-connection manager
sitting above an unreliable `vconn` transport.

The embedding models:
* machine integers by `Nat`/`Int` with explicit reductions mod `2^32` where
  the C code uses `unsigned int` arithmetic, and `time_t` by `Int`;
* the external collaborators (the `vconn` transport, the clock, the event
  loop) by explicit oracle parameters: every transport call that the C code
  performs consumes one oracle value giving that call's result, and every
  function that reads `time_now()` receives the current time `now : Int`;
* shared `rconn_packet_counter` objects by a store `Counters : List Nat`
  mapping a counter identity (a list index) to its `n` field;
* message buffers (`struct ofpbuf`) by their byte contents;
* logging, coverage counters and `poll_timer_wait`/`poll_immediate_wake`
  (which have no effect on the rconn state) are omitted.
-/

namespace RC

/-- `UINT_MAX` for the 32-bit `unsigned int` used by `sat_add` and the
state timeouts. -/
def U32MAX : Nat := 2 ^ 32 - 1

/-- `TIME_MAX`, the largest representable `time_t` (64-bit signed). -/
def TIME_MAX : Int := 2 ^ 63 - 1

/-- `TIME_MIN`, the smallest representable `time_t` (64-bit signed). -/
def TIME_MIN : Int := -(2 ^ 63)

/-- The `EAGAIN` errno value ("try again"). -/
def EAGAIN : Int := 11

/-- The `ENOTCONN` errno value ("not connected"). -/
def ENOTCONN : Int := 107

/-- C conversion of a signed value to `unsigned int`: reduce mod `2^32`. -/
def toU32 (x : Int) : Nat := (x % (2 ^ 32 : Int)).toNat

/-- Modelled from the spec: `sat_add` from `sat-math.h` (not under `src/`),
unsigned addition "saturating at the representable maximum" (spec section 4.2). -/
def sat_add (x y : Nat) : Nat := min (x + y) U32MAX

/-- The five connection states of `enum state` in `rconn.c`.  The C encoding
as single bits only serves the bitmask membership tests, which we model as
explicit disjunctions. -/
inductive State where
  | VOID
  | BACKOFF
  | CONNECTING
  | ACTIVE
  | IDLE
deriving DecidableEq, BEq, Repr

/-- A message buffer (`struct ofpbuf`): its byte contents.  The OpenFlow
header's one-byte `type` field sits at offset 1. -/
structure Ofpbuf where
  data : List Nat
deriving DecidableEq, Repr

/-- The store of shared packet counters: index = counter identity,
value = the counter's `n` field. -/
abbrev Counters := List Nat

/-- `rconn_packet_counter_inc`: `c->n++`. -/
def counter_inc (σ : Counters) (c : Nat) : Counters := σ.set c (σ.getD c 0 + 1)

/-- `rconn_packet_counter_dec`: `--c->n` (the two-phase free is memory
management only and does not affect the counter value). -/
def counter_dec (σ : Counters) (c : Nat) : Counters := σ.set c (σ.getD c 0 - 1)

/-- The address data cached from a successful `vconn_open`. -/
structure NetInfo where
  remote_ip : Nat
  local_ip : Nat
  remote_port : Nat
deriving DecidableEq, Repr

/-- `struct rconn`.  The `vconn` pointer is modelled by its presence
(`vconn : Bool`); each monitor vconn is modelled by the list of messages
successfully delivered to it. -/
structure Rconn where
  state : State
  state_entered : Int
  vconn : Bool
  name : String
  reliable : Bool
  txq : List (Ofpbuf × Option Nat)
  backoff : Int
  max_backoff : Int
  backoff_deadline : Int
  last_received : Int
  last_connected : Int
  packets_sent : Nat
  seqno : Nat
  probably_admitted : Bool
  last_admitted : Int
  packets_received : Nat
  n_attempted_connections : Nat
  n_successful_connections : Nat
  creation_time : Int
  total_time_connected : Nat
  questionable_connectivity : Bool
  last_questioned : Int
  probe_interval : Int
  local_ip : Nat
  remote_ip : Nat
  remote_port : Nat
  monitors : List (List Ofpbuf)
deriving DecidableEq, Repr

/-- `is_connected_state`: `(state & (S_ACTIVE | S_IDLE)) != 0`. -/
def is_connected_state (s : State) : Bool :=
  match s with
  | .ACTIVE | .IDLE => true
  | _ => false

/-- `rconn_is_connected`. -/
def rconn_is_connected (rc : Rconn) : Bool := is_connected_state rc.state

/-- `elapsed_in_this_state`: `time_now() - rc->state_entered`, returned as
`unsigned int`. -/
def elapsed_in_this_state (now : Int) (rc : Rconn) : Nat :=
  toU32 (now - rc.state_entered)

/-- `state_transition`: bump `seqno` when the ACTIVE/non-ACTIVE boundary is
crossed, clear `probably_admitted` on entry to a connected state from a
disconnected one, account `total_time_connected` when leaving a connected
state, then record the new state and its entry time. -/
def state_transition (now : Int) (rc : Rconn) (s : State) : Rconn :=
  let seqno' :=
    (rc.seqno + (if (decide (rc.state = State.ACTIVE)) ≠ (decide (s = State.ACTIVE))
                 then 1 else 0)) % 2 ^ 32
  let pa' := if is_connected_state s && !is_connected_state rc.state
             then false else rc.probably_admitted
  let ttc' := if is_connected_state rc.state
              then rc.total_time_connected + elapsed_in_this_state now rc
              else rc.total_time_connected
  { rc with
    seqno := seqno'
    probably_admitted := pa'
    total_time_connected := ttc'
    state := s
    state_entered := now }

/-- `set_vconn_name`: rename the peer and clear the cached addresses. -/
def set_vconn_name (rc : Rconn) (nm : String) : Rconn :=
  { rc with name := nm, local_ip := 0, remote_ip := 0, remote_port := 0 }

/-- `rconn_set_probe_interval`: clamp to 0 or at least 5. -/
def rconn_set_probe_interval (rc : Rconn) (p : Int) : Rconn :=
  { rc with probe_interval := if p ≠ 0 then max 5 p else 0 }

/-- `rconn_create`.  `now` stands for the `time_now()` calls during
creation. -/
def rconn_create (now : Int) (probe mb : Int) : Rconn :=
  rconn_set_probe_interval
    { state := State.VOID
      state_entered := now
      vconn := false
      name := "void"
      reliable := false
      txq := []
      backoff := 0
      max_backoff := if mb ≠ 0 then mb else 8
      backoff_deadline := TIME_MIN
      last_received := now
      last_connected := now
      packets_sent := 0
      seqno := 0
      probably_admitted := false
      last_admitted := now
      packets_received := 0
      n_attempted_connections := 0
      n_successful_connections := 0
      creation_time := now
      total_time_connected := 0
      questionable_connectivity := false
      last_questioned := now
      probe_interval := 0
      local_ip := 0
      remote_ip := 0
      remote_port := 0
      monitors := [] } probe

/-- `rconn_set_max_backoff`.  Note that the body clamps `rc->max_backoff`
to at least 1 but compares and assigns the raw `max_backoff` argument when
clamping the current backoff in state BACKOFF. -/
def rconn_set_max_backoff (now : Int) (rc : Rconn) (mb : Int) : Rconn :=
  let rc1 := { rc with max_backoff := max 1 mb }
  if rc1.state = State.BACKOFF ∧ rc1.backoff > mb then
    let rc2 := { rc1 with backoff := mb }
    if rc2.backoff_deadline > now + mb then
      { rc2 with backoff_deadline := now + mb }
    else rc2
  else rc1

/-- `question_connectivity`: debounced sticky flag. -/
def question_connectivity (now : Int) (rc : Rconn) : Rconn :=
  if now - rc.last_questioned > 60 then
    { rc with questionable_connectivity := true, last_questioned := now }
  else rc

/-- `flush_queue`: drop every queued packet, decrementing its counter. -/
def flush_queue (rc : Rconn) (σ : Counters) : Rconn × Counters :=
  let σ' := rc.txq.foldl
    (fun s e => match e.2 with | some c => counter_dec s c | none => s) σ
  ({ rc with txq := [] }, σ')

/-- `rconn_disconnect` (the public API): terminal transition to VOID. -/
def rconn_disconnect (now : Int) (rc : Rconn) : Rconn :=
  if rc.state ≠ State.VOID then
    let rc1 := set_vconn_name { rc with vconn := false } "void"
    let rc2 := { rc1 with reliable := false, backoff := 0,
                          backoff_deadline := TIME_MIN }
    state_transition now rc2 State.VOID
  else rc

/-- The internal `disconnect`: on a reliable rconn, close the transport,
flush the queue, apply the backoff policy and enter BACKOFF; on an
unreliable one, fall back to `rconn_disconnect`.  The `err` argument is
`OVS_UNUSED` in the source. -/
def disconnect (now _err : Int) (rc : Rconn) (σ : Counters) : Rconn × Counters :=
  if rc.reliable then
    let fs := if rc.state = State.CONNECTING ∨ rc.state = State.ACTIVE ∨
                 rc.state = State.IDLE
              then flush_queue { rc with vconn := false } σ
              else (rc, σ)
    let rc1 := fs.1
    let backoff' := if now ≥ rc1.backoff_deadline then 1
                    else min rc1.max_backoff (max 1 (2 * rc1.backoff))
    let rc2 := { rc1 with backoff := backoff', backoff_deadline := now + backoff' }
    let rc3 := state_transition now rc2 State.BACKOFF
    let rc4 := if now - rc3.last_connected > 60 then question_connectivity now rc3
               else rc3
    (rc4, fs.2)
  else
    (rconn_disconnect now rc, σ)

/-- `try_send`: one transport-level send of the head buffer.  `sc` is the
oracle result of the `vconn_send` call (0 = success, `EAGAIN` = transient,
anything else = hard error, which reports and disconnects).  The C caller
guarantees a non-empty queue; on an empty queue we return success
untouched. -/
def try_send (sc : Int) (now : Int) (rc : Rconn) (σ : Counters) :
    Int × Rconn × Counters :=
  match rc.txq with
  | [] => (0, rc, σ)
  | e :: rest =>
    if sc ≠ 0 then
      if sc ≠ EAGAIN then
        let d := disconnect now sc rc σ
        (sc, d.1, d.2)
      else (sc, rc, σ)
    else
      let σ' := match e.2 with | some c => counter_dec σ c | none => σ
      (0, { rc with packets_sent := (rc.packets_sent + 1) % 2 ^ 32,
                    txq := rest }, σ')

/-- The drain loop of `do_tx_work`: call `try_send` until the queue empties
or an error stops the drain.  Each iteration consumes one `vconn_send`
oracle result; an exhausted oracle stops the drain. -/
def do_tx_loop : List Int → Int → Rconn → Counters → Rconn × Counters
  | [], _, rc, σ => (rc, σ)
  | sc :: scs, now, rc, σ =>
    if rc.txq.length > 0 then
      let r := try_send sc now rc σ
      if r.1 ≠ 0 then (r.2.1, r.2.2) else do_tx_loop scs now r.2.1 r.2.2
    else (rc, σ)

/-- `do_tx_work` (the `poll_immediate_wake` on emptying is not modelled). -/
def do_tx_work (scs : List Int) (now : Int) (rc : Rconn) (σ : Counters) :
    Rconn × Counters :=
  if rc.txq.length = 0 then (rc, σ) else do_tx_loop scs now rc σ

/-- Removal of monitor `i` by swap-with-last, as in `copy_to_monitor`:
`rc->monitors[i] = rc->monitors[--rc->n_monitors]`. -/
def remove_swap (ms : List (List Ofpbuf)) (i : Nat) : List (List Ofpbuf) :=
  (ms.set i (ms.getD (ms.length - 1) [])).take (ms.length - 1)

/-- The loop of `copy_to_monitor`.  `mcs` supplies the result of each
`vconn_send` to a monitor: on success the monitor receives the clone of the
message and the loop moves on; on `EAGAIN` the clone is retried on the next
monitor; on any other error the monitor is removed by swap-with-last
without advancing. -/
def copy_loop (b : Ofpbuf) : List Int → Nat → List (List Ofpbuf) →
    List (List Ofpbuf)
  | [], _, ms => ms
  | mc :: mcs, i, ms =>
    if i < ms.length then
      if mc = 0 then copy_loop b mcs (i + 1) (ms.set i (ms.getD i [] ++ [b]))
      else if mc = EAGAIN then copy_loop b mcs (i + 1) ms
      else copy_loop b mcs i (remove_swap ms i)
    else ms

/-- `copy_to_monitor`: best-effort clone-and-forward to every monitor. -/
def copy_to_monitor (mcs : List Int) (rc : Rconn) (b : Ofpbuf) : Rconn :=
  { rc with monitors := copy_loop b mcs 0 rc.monitors }

/-- The outcome of `rconn_send`: the returned errno, the updated rconn and
counter store, and whether ownership of the buffer left the caller. -/
structure SendResult where
  retval : Int
  rconn : Rconn
  counters : Counters
  consumed : Bool
deriving DecidableEq, Repr

/-- `rconn_send`.  In a connected state: copy to the monitors, tag the
message with the counter (incrementing it when present), append to the send
queue, and if the queue was empty try one immediate send (`sc` is that
call's `vconn_send` oracle result).  Otherwise return `ENOTCONN` with the
caller keeping the buffer. -/
def rconn_send (sc : Int) (mcs : List Int) (now : Int) (rc : Rconn)
    (σ : Counters) (b : Ofpbuf) (cnt : Option Nat) : SendResult :=
  if rconn_is_connected rc then
    let rc1 := copy_to_monitor mcs rc b
    let σ1 := match cnt with | some c => counter_inc σ c | none => σ
    let rc2 := { rc1 with txq := rc1.txq ++ [(b, cnt)] }
    if rc2.txq.length = 1 then
      let r := try_send sc now rc2 σ1
      ⟨0, r.2.1, r.2.2, true⟩
    else ⟨0, rc2, σ1, true⟩
  else ⟨ENOTCONN, rc, σ, false⟩

/-- `rconn_send_with_limit`.  The counter pointer is dereferenced
unconditionally (`counter->n >= queue_limit`); a missing counter is the
null-dereference error branch, modelled as `none`.  The comparison is the
C one: `n` is `unsigned int`, so the `int` limit converts to unsigned. -/
def rconn_send_with_limit (sc : Int) (mcs : List Int) (now : Int)
    (rc : Rconn) (σ : Counters) (b : Ofpbuf) (cnt : Option Nat)
    (queue_limit : Int) : Option SendResult :=
  match cnt with
  | none => none
  | some c =>
    if σ.getD c 0 ≥ toU32 queue_limit then
      some ⟨EAGAIN, rc, σ, true⟩
    else
      let r := rconn_send sc mcs now rc σ b (some c)
      if r.retval ≠ 0 then some ⟨r.retval, r.rconn, r.counters, true⟩
      else some r

/-- Modelled from the spec: the ten OFPT_* codes of OpenFlow 1.0 control
traffic named in spec section 4.7 (`openflow.h` is not under `src/`). -/
def OFPT_HELLO : Nat := 0
def OFPT_ERROR : Nat := 1
def OFPT_ECHO_REQUEST : Nat := 2
def OFPT_ECHO_REPLY : Nat := 3
def OFPT_VENDOR : Nat := 4
def OFPT_FEATURES_REQUEST : Nat := 5
def OFPT_FEATURES_REPLY : Nat := 6
def OFPT_GET_CONFIG_REQUEST : Nat := 7
def OFPT_GET_CONFIG_REPLY : Nat := 8
def OFPT_SET_CONFIG : Nat := 9

/-- The bitmask of pre-admission message types built in `is_admitted_msg`. -/
def ADMITTED_MASK : Nat :=
  (1 <<< OFPT_HELLO) ||| (1 <<< OFPT_ERROR) ||| (1 <<< OFPT_ECHO_REQUEST) |||
  (1 <<< OFPT_ECHO_REPLY) ||| (1 <<< OFPT_VENDOR) |||
  (1 <<< OFPT_FEATURES_REQUEST) ||| (1 <<< OFPT_FEATURES_REPLY) |||
  (1 <<< OFPT_GET_CONFIG_REQUEST) ||| (1 <<< OFPT_GET_CONFIG_REPLY) |||
  (1 <<< OFPT_SET_CONFIG)

/-- `is_admitted_msg` on the one-byte type field. -/
def is_admitted_type (t : Nat) : Bool :=
  if t < 32 ∧ (1 <<< t) &&& ADMITTED_MASK ≠ 0 then false else true

/-- `is_admitted_msg`: read the unsigned byte at offset 1 of the buffer
(the OpenFlow header's `type` field) and test it against the mask. -/
def is_admitted_msg (b : Ofpbuf) : Bool := is_admitted_type (b.data.getD 1 0)

/-- `rconn_recv`.  `rr` is the `vconn_recv` oracle result: a received
buffer or an errno. -/
def rconn_recv (rr : Except Int Ofpbuf) (mcs : List Int) (now : Int)
    (rc : Rconn) (σ : Counters) : Option Ofpbuf × Rconn × Counters :=
  if rc.state = State.ACTIVE ∨ rc.state = State.IDLE then
    match rr with
    | .ok buffer =>
      let rc1 := copy_to_monitor mcs rc buffer
      let rc2 := if rc1.probably_admitted || is_admitted_msg buffer ||
                    decide (now - rc1.last_connected ≥ 30)
                 then { rc1 with probably_admitted := true, last_admitted := now }
                 else rc1
      let rc3 := { rc2 with last_received := now,
                            packets_received := (rc2.packets_received + 1) % 2 ^ 32 }
      let rc4 := if rc3.state = State.IDLE then state_transition now rc3 State.ACTIVE
                 else rc3
      (some buffer, rc4, σ)
    | .error e =>
      if e ≠ EAGAIN then
        let d := disconnect now e rc σ
        (none, d.1, d.2)
      else (none, rc, σ)
  else (none, rc, σ)

/-- `reconnect`: one `vconn_open` attempt.  `openRes` is the call's oracle
result: on success the cached addresses are refreshed and the rconn enters
CONNECTING; on failure `backoff_deadline` is forced to `TIME_MAX` before
`disconnect`, preventing the backoff reset. -/
def reconnect (openRes : Option NetInfo) (now : Int) (rc : Rconn)
    (σ : Counters) : Rconn × Counters :=
  let rc0 := { rc with n_attempted_connections :=
                 (rc.n_attempted_connections + 1) % 2 ^ 32 }
  match openRes with
  | some info =>
    let rc1 := { rc0 with remote_ip := info.remote_ip,
                          local_ip := info.local_ip,
                          remote_port := info.remote_port,
                          backoff_deadline := now + rc0.backoff,
                          vconn := true }
    (state_transition now rc1 State.CONNECTING, σ)
  | none =>
    disconnect now 0 { rc0 with backoff_deadline := TIME_MAX } σ

/-- `timeout_VOID`. -/
def timeout_VOID (_rc : Rconn) : Nat := U32MAX

/-- `timeout_BACKOFF`: `rc->backoff` as `unsigned int`. -/
def timeout_BACKOFF (rc : Rconn) : Nat := toU32 rc.backoff

/-- `timeout_CONNECTING`: `MAX(1, rc->backoff)`. -/
def timeout_CONNECTING (rc : Rconn) : Nat := toU32 (max 1 rc.backoff)

/-- `timeout_ACTIVE`: probe after `probe_interval` seconds of silence,
measured from `MAX(last_received, state_entered)`; infinite when probing is
disabled.  The arithmetic follows the C `unsigned int` computation of
`base + rc->probe_interval - rc->state_entered`. -/
def timeout_ACTIVE (rc : Rconn) : Nat :=
  if rc.probe_interval ≠ 0 then
    let base : Nat := toU32 (max rc.last_received rc.state_entered)
    toU32 ((((base + toU32 rc.probe_interval) % 2 ^ 32 : Nat) : Int) -
           rc.state_entered)
  else U32MAX

/-- `timeout_IDLE`: `rc->probe_interval`. -/
def timeout_IDLE (rc : Rconn) : Nat := toU32 rc.probe_interval

/-- The state-dispatched `timeout`. -/
def timeout_of (rc : Rconn) : Nat :=
  match rc.state with
  | .VOID => timeout_VOID rc
  | .BACKOFF => timeout_BACKOFF rc
  | .CONNECTING => timeout_CONNECTING rc
  | .ACTIVE => timeout_ACTIVE rc
  | .IDLE => timeout_IDLE rc

/-- `timed_out`: `time_now() >= sat_add(rc->state_entered, timeout(rc))`
(the saturated sum is an `unsigned int`, promoted back for the signed
comparison). -/
def timed_out (now : Int) (rc : Rconn) : Bool :=
  decide (now ≥ (sat_add (toU32 rc.state_entered) (timeout_of rc) : Int))

/-- Modelled from the spec: the buffer built by `make_echo_request` (the OF
codec is not under `src/`): an OpenFlow header whose type byte (offset 1)
is `OFPT_ECHO_REQUEST`. -/
def echo_request : Ofpbuf := ⟨[1, OFPT_ECHO_REQUEST, 0, 8, 0, 0, 0, 0]⟩

/-- The oracle data consumed by one iteration of the `rconn_run` loop:
the current time and the results of the transport calls that iteration
may perform. -/
structure Tick where
  now : Int
  openRes : Option NetInfo
  connectRes : Int
  sendResults : List Int
  monResults : List Int
deriving Repr

/-- `run_VOID`: nothing to do. -/
def run_VOID (_t : Tick) (rc : Rconn) (σ : Counters) : Rconn × Counters :=
  (rc, σ)

/-- `run_BACKOFF`: reconnect once the backoff deadline passes. -/
def run_BACKOFF (t : Tick) (rc : Rconn) (σ : Counters) : Rconn × Counters :=
  if timed_out t.now rc then reconnect t.openRes t.now rc σ else (rc, σ)

/-- `run_CONNECTING`: poll `vconn_connect`; on success enter ACTIVE and
record `last_connected`; on a hard error disconnect; on timeout force
`backoff_deadline` to `TIME_MAX` and disconnect (so the backoff doubles). -/
def run_CONNECTING (t : Tick) (rc : Rconn) (σ : Counters) : Rconn × Counters :=
  if t.connectRes = 0 then
    let rc1 := { rc with n_successful_connections :=
                   (rc.n_successful_connections + 1) % 2 ^ 32 }
    let rc2 := state_transition t.now rc1 State.ACTIVE
    ({ rc2 with last_connected := rc2.state_entered }, σ)
  else if t.connectRes ≠ EAGAIN then
    disconnect t.now t.connectRes rc σ
  else if timed_out t.now rc then
    disconnect t.now 0 { rc with backoff_deadline := TIME_MAX } σ
  else (rc, σ)

/-- `run_ACTIVE`: on inactivity timeout, transition to IDLE *first* and
then enqueue the echo probe through the normal send path (the ordering is
load-bearing in the source); otherwise drain the send queue. -/
def run_ACTIVE (t : Tick) (rc : Rconn) (σ : Counters) : Rconn × Counters :=
  if timed_out t.now rc then
    let rc1 := state_transition t.now rc State.IDLE
    let r := rconn_send (t.sendResults.getD 0 EAGAIN) t.monResults t.now rc1 σ
               echo_request none
    (r.rconn, r.counters)
  else do_tx_work t.sendResults t.now rc σ

/-- `run_IDLE`: when a second `probe_interval` elapses with no traffic,
mark connectivity questionable and disconnect; otherwise drain. -/
def run_IDLE (t : Tick) (rc : Rconn) (σ : Counters) : Rconn × Counters :=
  if timed_out t.now rc then
    disconnect t.now 0 (question_connectivity t.now rc) σ
  else do_tx_work t.sendResults t.now rc σ

/-- One iteration of the `rconn_run` state dispatch. -/
def run_once (t : Tick) (rc : Rconn) (σ : Counters) : Rconn × Counters :=
  match rc.state with
  | .VOID => run_VOID t rc σ
  | .BACKOFF => run_BACKOFF t rc σ
  | .CONNECTING => run_CONNECTING t rc σ
  | .ACTIVE => run_ACTIVE t rc σ
  | .IDLE => run_IDLE t rc σ

/-- `rconn_run`: execute the per-state action repeatedly until the state
does not change across an iteration.  The tick list bounds and feeds the
iterations; the C loop corresponds to a sufficiently long list. -/
def rconn_run : List Tick → Rconn → Counters → Rconn × Counters
  | [], rc, σ => (rc, σ)
  | t :: ts, rc, σ =>
    let r := run_once t rc σ
    if r.1.state = rc.state then r else rconn_run ts r.1 r.2

/-- `rconn_connect`: disconnect, rename, mark reliable and attempt one
`reconnect`. -/
def rconn_connect (openRes : Option NetInfo) (now : Int) (rc : Rconn)
    (σ : Counters) (nm : String) : Rconn × Counters :=
  let rc1 := set_vconn_name (rconn_disconnect now rc) nm
  reconnect openRes now { rc1 with reliable := true } σ

/-- `rconn_connect_unreliably`: adopt a pre-opened transport and go
straight to ACTIVE. -/
def rconn_connect_unreliably (now : Int) (rc : Rconn) (nm : String) : Rconn :=
  let rc1 := set_vconn_name (rconn_disconnect now rc) nm
  let rc2 := { rc1 with reliable := false, vconn := true, last_connected := now }
  state_transition now rc2 State.ACTIVE

/-- `rconn_reconnect`: drop a live connection on caller request. -/
def rconn_reconnect (now : Int) (rc : Rconn) (σ : Counters) : Rconn × Counters :=
  if rc.state = State.ACTIVE ∨ rc.state = State.IDLE then disconnect now 0 rc σ
  else (rc, σ)

/-- The mutating API calls an owner can interleave with the run loop, each
carrying the oracle data of the external calls it performs. -/
inductive Ev where
  | run (ticks : List Tick)
  | recv (rr : Except Int Ofpbuf) (mcs : List Int) (now : Int)
  | send (sc : Int) (mcs : List Int) (now : Int) (b : Ofpbuf) (cnt : Option Nat)
  | connect (openRes : Option NetInfo) (now : Int) (nm : String)
  | connectUnreliably (now : Int) (nm : String)
  | reconnectReq (now : Int)
  | disconnectReq (now : Int)
  | setMaxBackoff (now : Int) (mb : Int)
  | setProbeInterval (p : Int)

/-- Apply one API call to an rconn and the counter store. -/
def apply_ev (e : Ev) (s : Rconn × Counters) : Rconn × Counters :=
  match e with
  | .run ticks => rconn_run ticks s.1 s.2
  | .recv rr mcs now => (rconn_recv rr mcs now s.1 s.2).2
  | .send sc mcs now b cnt =>
    let r := rconn_send sc mcs now s.1 s.2 b cnt
    (r.rconn, r.counters)
  | .connect o now nm => rconn_connect o now s.1 s.2 nm
  | .connectUnreliably now nm => (rconn_connect_unreliably now s.1 nm, s.2)
  | .reconnectReq now => rconn_reconnect now s.1 s.2
  | .disconnectReq now => (rconn_disconnect now s.1, s.2)
  | .setMaxBackoff now mb => (rconn_set_max_backoff now s.1 mb, s.2)
  | .setProbeInterval p => (rconn_set_probe_interval s.1 p, s.2)

/-- Apply a sequence of API calls. -/
def run_events : List Ev → Rconn × Counters → Rconn × Counters
  | [], s => s
  | e :: es, s => run_events es (apply_ev e s)

/-- A realistic clock reading: below `UINT_MAX` seconds. -/
def tick_ok (t : Tick) : Bool := decide (t.now < (U32MAX : Int))

/-- Events whose clock readings are realistic and that never enable the
inactivity probe. -/
def ev_ok : Ev → Bool
  | .run ticks => ticks.all tick_ok
  | .setProbeInterval p => p == 0
  | _ => true

/-! ### Basic facts about the embedded operations -/

@[simp]
theorem state_transition_state (now : Int) (rc : Rconn) (s : State) :
    (state_transition now rc s).state = s := rfl

@[simp]
theorem state_transition_probe (now : Int) (rc : Rconn) (s : State) :
    (state_transition now rc s).probe_interval = rc.probe_interval := rfl

@[simp]
theorem question_connectivity_state (now : Int) (rc : Rconn) :
    (question_connectivity now rc).state = rc.state := by
  unfold question_connectivity; split <;> rfl

@[simp]
theorem question_connectivity_probe (now : Int) (rc : Rconn) :
    (question_connectivity now rc).probe_interval = rc.probe_interval := by
  unfold question_connectivity; split <;> rfl

@[simp]
theorem flush_queue_state (rc : Rconn) (σ : Counters) :
    (flush_queue rc σ).1.state = rc.state := rfl

@[simp]
theorem flush_queue_probe (rc : Rconn) (σ : Counters) :
    (flush_queue rc σ).1.probe_interval = rc.probe_interval := rfl

@[simp]
theorem rconn_disconnect_state (now : Int) (rc : Rconn) :
    (rconn_disconnect now rc).state = State.VOID := by
  unfold rconn_disconnect
  split
  · exact state_transition_state ..
  · simp_all

@[simp]
theorem rconn_disconnect_probe (now : Int) (rc : Rconn) :
    (rconn_disconnect now rc).probe_interval = rc.probe_interval := by
  unfold rconn_disconnect
  split <;> rfl

theorem disconnect_state (now err : Int) (rc : Rconn) (σ : Counters) :
    (disconnect now err rc σ).1.state = State.BACKOFF ∨
    (disconnect now err rc σ).1.state = State.VOID := by
  unfold disconnect
  dsimp only
  split_ifs <;> simp

theorem disconnect_probe (now err : Int) (rc : Rconn) (σ : Counters) :
    (disconnect now err rc σ).1.probe_interval = rc.probe_interval := by
  unfold disconnect
  dsimp only
  split_ifs <;> simp

theorem try_send_state (sc now : Int) (rc : Rconn) (σ : Counters) :
    (try_send sc now rc σ).2.1.state = rc.state ∨
    (try_send sc now rc σ).2.1.state = State.BACKOFF ∨
    (try_send sc now rc σ).2.1.state = State.VOID := by
  unfold try_send
  cases h : rc.txq with
  | nil => left; rfl
  | cons e rest =>
    dsimp only
    split_ifs
    · right; exact disconnect_state now sc rc σ
    · left; rfl
    · left; rfl

theorem try_send_probe (sc now : Int) (rc : Rconn) (σ : Counters) :
    (try_send sc now rc σ).2.1.probe_interval = rc.probe_interval := by
  unfold try_send
  cases h : rc.txq with
  | nil => rfl
  | cons e rest =>
    dsimp only
    split_ifs
    · exact disconnect_probe now sc rc σ
    · rfl
    · rfl

theorem do_tx_loop_state (scs : List Int) (now : Int) (rc : Rconn) (σ : Counters) :
    (do_tx_loop scs now rc σ).1.state = rc.state ∨
    (do_tx_loop scs now rc σ).1.state = State.BACKOFF ∨
    (do_tx_loop scs now rc σ).1.state = State.VOID := by
  induction scs generalizing rc σ with
  | nil => left; rfl
  | cons sc scs ih =>
    unfold do_tx_loop
    dsimp only
    split_ifs
    · exact try_send_state ..
    · rcases ih (try_send sc now rc σ).2.1 (try_send sc now rc σ).2.2 with h | h | h
      · rw [h]; exact try_send_state ..
      · right; left; exact h
      · right; right; exact h
    · left; rfl

theorem do_tx_loop_probe (scs : List Int) (now : Int) (rc : Rconn) (σ : Counters) :
    (do_tx_loop scs now rc σ).1.probe_interval = rc.probe_interval := by
  induction scs generalizing rc σ with
  | nil => rfl
  | cons sc scs ih =>
    unfold do_tx_loop
    dsimp only
    split_ifs
    · exact try_send_probe ..
    · rw [ih, try_send_probe]
    · rfl

theorem do_tx_work_state (scs : List Int) (now : Int) (rc : Rconn) (σ : Counters) :
    (do_tx_work scs now rc σ).1.state = rc.state ∨
    (do_tx_work scs now rc σ).1.state = State.BACKOFF ∨
    (do_tx_work scs now rc σ).1.state = State.VOID := by
  unfold do_tx_work
  split
  · left; rfl
  · exact do_tx_loop_state ..

theorem do_tx_work_probe (scs : List Int) (now : Int) (rc : Rconn) (σ : Counters) :
    (do_tx_work scs now rc σ).1.probe_interval = rc.probe_interval := by
  unfold do_tx_work
  split
  · rfl
  · exact do_tx_loop_probe ..

theorem reconnect_state (o : Option NetInfo) (now : Int) (rc : Rconn) (σ : Counters) :
    (reconnect o now rc σ).1.state = State.CONNECTING ∨
    (reconnect o now rc σ).1.state = State.BACKOFF ∨
    (reconnect o now rc σ).1.state = State.VOID := by
  unfold reconnect
  cases o with
  | some info => left; exact state_transition_state ..
  | none => right; exact disconnect_state ..

theorem reconnect_probe (o : Option NetInfo) (now : Int) (rc : Rconn) (σ : Counters) :
    (reconnect o now rc σ).1.probe_interval = rc.probe_interval := by
  unfold reconnect
  cases o with
  | some info => exact state_transition_probe ..
  | none => rw [disconnect_probe]

theorem rconn_send_state (sc : Int) (mcs : List Int) (now : Int) (rc : Rconn)
    (σ : Counters) (b : Ofpbuf) (cnt : Option Nat) :
    (rconn_send sc mcs now rc σ b cnt).rconn.state = rc.state ∨
    (rconn_send sc mcs now rc σ b cnt).rconn.state = State.BACKOFF ∨
    (rconn_send sc mcs now rc σ b cnt).rconn.state = State.VOID := by
  unfold rconn_send
  cases cnt with
  | none =>
    dsimp only
    split_ifs
    · exact try_send_state sc now _ _
    · left; rfl
    · left; rfl
  | some c =>
    dsimp only
    split_ifs
    · exact try_send_state sc now _ _
    · left; rfl
    · left; rfl

theorem rconn_send_probe (sc : Int) (mcs : List Int) (now : Int) (rc : Rconn)
    (σ : Counters) (b : Ofpbuf) (cnt : Option Nat) :
    (rconn_send sc mcs now rc σ b cnt).rconn.probe_interval = rc.probe_interval := by
  unfold rconn_send
  cases cnt with
  | none =>
    dsimp only
    split_ifs
    · exact try_send_probe sc now _ _
    · rfl
    · rfl
  | some c =>
    dsimp only
    split_ifs
    · exact try_send_probe sc now _ _
    · rfl
    · rfl

theorem sat_add_u32max (x : Nat) : sat_add x U32MAX = U32MAX := by
  unfold sat_add
  exact Nat.min_eq_right (Nat.le_add_left _ _)

/-- With probing disabled, the ACTIVE state's timeout is `UINT_MAX`, so for
any realistic clock `timed_out` is false. -/
theorem timed_out_ACTIVE_probe_disabled (now : Int) (rc : Rconn)
    (hp : rc.probe_interval = 0) (hs : rc.state = State.ACTIVE)
    (hn : now < (U32MAX : Int)) :
    timed_out now rc = false := by
  have ht : timeout_of rc = U32MAX := by
    unfold timeout_of
    rw [hs]
    unfold timeout_ACTIVE
    rw [hp]
    simp
  unfold timed_out
  rw [ht, sat_add_u32max]
  rw [decide_eq_false_iff_not]
  exact not_le.mpr hn

theorem rconn_recv_probe (rr : Except Int Ofpbuf) (mcs : List Int) (now : Int)
    (rc : Rconn) (σ : Counters) :
    (rconn_recv rr mcs now rc σ).2.1.probe_interval = rc.probe_interval := by
  unfold rconn_recv
  by_cases hc : rc.state = State.ACTIVE ∨ rc.state = State.IDLE
  · rw [if_pos hc]
    cases rr with
    | ok buffer =>
      dsimp only
      split_ifs <;> simp [copy_to_monitor]
    | error e =>
      dsimp only
      split_ifs
      · exact disconnect_probe now e rc σ
      · rfl
  · rw [if_neg hc]

theorem rconn_recv_not_idle (rr : Except Int Ofpbuf) (mcs : List Int) (now : Int)
    (rc : Rconn) (σ : Counters) (h : rc.state ≠ State.IDLE) :
    (rconn_recv rr mcs now rc σ).2.1.state ≠ State.IDLE := by
  unfold rconn_recv
  by_cases hc : rc.state = State.ACTIVE ∨ rc.state = State.IDLE
  · rw [if_pos hc]
    cases rr with
    | ok buffer =>
      dsimp only
      split_ifs <;> simp_all [copy_to_monitor]
    | error e =>
      dsimp only
      split_ifs
      · rcases disconnect_state now e rc σ with hd | hd <;> rw [hd] <;> simp
      · exact h
  · rw [if_neg hc]
    exact h

theorem run_once_quiet (t : Tick) (rc : Rconn) (σ : Counters)
    (hp : rc.probe_interval = 0) (hs : rc.state ≠ State.IDLE)
    (hn : t.now < (U32MAX : Int)) :
    (run_once t rc σ).1.probe_interval = 0 ∧
    (run_once t rc σ).1.state ≠ State.IDLE := by
  unfold run_once
  cases hst : rc.state with
  | VOID => exact ⟨hp, hs⟩
  | BACKOFF =>
    dsimp only [run_BACKOFF]
    split_ifs
    · refine ⟨by rw [reconnect_probe]; exact hp, ?_⟩
      rcases reconnect_state t.openRes t.now rc σ with h | h | h <;> rw [h] <;> simp
    · exact ⟨hp, by rw [hst]; simp⟩
  | CONNECTING =>
    dsimp only [run_CONNECTING]
    split_ifs
    · exact ⟨by simp [hp], by simp⟩
    · refine ⟨by rw [disconnect_probe]; exact hp, ?_⟩
      rcases disconnect_state t.now t.connectRes rc σ with h | h <;> rw [h] <;> simp
    · refine ⟨by rw [disconnect_probe]; simpa using hp, ?_⟩
      rcases disconnect_state t.now 0 { rc with backoff_deadline := TIME_MAX } σ
        with h | h <;> rw [h] <;> simp
    · exact ⟨hp, by rw [hst]; simp⟩
  | ACTIVE =>
    dsimp only [run_ACTIVE]
    rw [timed_out_ACTIVE_probe_disabled t.now rc hp hst hn]
    simp only [Bool.false_eq_true, if_false]
    refine ⟨by rw [do_tx_work_probe]; exact hp, ?_⟩
    rcases do_tx_work_state t.sendResults t.now rc σ with h | h | h <;>
      rw [h] <;> first | (rw [hst]; simp) | simp
  | IDLE => exact absurd hst hs

theorem rconn_run_quiet (ticks : List Tick) (rc : Rconn) (σ : Counters)
    (hp : rc.probe_interval = 0) (hs : rc.state ≠ State.IDLE)
    (hn : ticks.all tick_ok = true) :
    (rconn_run ticks rc σ).1.probe_interval = 0 ∧
    (rconn_run ticks rc σ).1.state ≠ State.IDLE := by
  induction ticks generalizing rc σ with
  | nil => exact ⟨hp, hs⟩
  | cons t ts ih =>
    rw [List.all_cons, Bool.and_eq_true] at hn
    have hq := run_once_quiet t rc σ hp hs (by simpa [tick_ok] using hn.1)
    unfold rconn_run
    dsimp only
    split
    · exact hq
    · exact ih _ _ hq.1 hq.2 hn.2

theorem rconn_set_max_backoff_probe (now : Int) (rc : Rconn) (mb : Int) :
    (rconn_set_max_backoff now rc mb).probe_interval = rc.probe_interval := by
  unfold rconn_set_max_backoff
  dsimp only
  split_ifs <;> rfl

theorem rconn_set_max_backoff_state (now : Int) (rc : Rconn) (mb : Int) :
    (rconn_set_max_backoff now rc mb).state = rc.state := by
  unfold rconn_set_max_backoff
  dsimp only
  split_ifs <;> rfl

theorem rconn_connect_quiet (o : Option NetInfo) (now : Int) (rc : Rconn)
    (σ : Counters) (nm : String) (hp : rc.probe_interval = 0) :
    (rconn_connect o now rc σ nm).1.probe_interval = 0 ∧
    (rconn_connect o now rc σ nm).1.state ≠ State.IDLE := by
  unfold rconn_connect
  dsimp only
  constructor
  · rw [reconnect_probe]
    simp [set_vconn_name, hp]
  · rcases reconnect_state o now
      { set_vconn_name (rconn_disconnect now rc) nm with reliable := true } σ
      with h | h | h <;> rw [h] <;> simp

theorem rconn_connect_unreliably_quiet (now : Int) (rc : Rconn) (nm : String)
    (hp : rc.probe_interval = 0) :
    (rconn_connect_unreliably now rc nm).probe_interval = 0 ∧
    (rconn_connect_unreliably now rc nm).state ≠ State.IDLE := by
  unfold rconn_connect_unreliably
  dsimp only
  exact ⟨by simp [set_vconn_name, hp], by simp⟩

theorem rconn_reconnect_quiet (now : Int) (rc : Rconn) (σ : Counters)
    (hp : rc.probe_interval = 0) (hs : rc.state ≠ State.IDLE) :
    (rconn_reconnect now rc σ).1.probe_interval = 0 ∧
    (rconn_reconnect now rc σ).1.state ≠ State.IDLE := by
  unfold rconn_reconnect
  split_ifs
  · refine ⟨by rw [disconnect_probe]; exact hp, ?_⟩
    rcases disconnect_state now 0 rc σ with h | h <;> rw [h] <;> simp
  · exact ⟨hp, hs⟩

theorem apply_ev_quiet (e : Ev) (s : Rconn × Counters)
    (hp : s.1.probe_interval = 0) (hs : s.1.state ≠ State.IDLE)
    (he : ev_ok e = true) :
    (apply_ev e s).1.probe_interval = 0 ∧
    (apply_ev e s).1.state ≠ State.IDLE := by
  cases e with
  | run ticks =>
    exact rconn_run_quiet ticks s.1 s.2 hp hs (by simpa [ev_ok] using he)
  | recv rr mcs now =>
    exact ⟨by dsimp only [apply_ev]; rw [rconn_recv_probe]; exact hp,
           by dsimp only [apply_ev]; exact rconn_recv_not_idle rr mcs now s.1 s.2 hs⟩
  | send sc mcs now b cnt =>
    refine ⟨by dsimp only [apply_ev]; rw [rconn_send_probe]; exact hp, ?_⟩
    dsimp only [apply_ev]
    rcases rconn_send_state sc mcs now s.1 s.2 b cnt with h | h | h <;>
      rw [h] <;> first | exact hs | simp
  | connect o now nm => exact rconn_connect_quiet o now s.1 s.2 nm hp
  | connectUnreliably now nm => exact rconn_connect_unreliably_quiet now s.1 nm hp
  | reconnectReq now => exact rconn_reconnect_quiet now s.1 s.2 hp hs
  | disconnectReq now =>
    exact ⟨by dsimp only [apply_ev]; rw [rconn_disconnect_probe]; exact hp,
           by dsimp only [apply_ev]; rw [rconn_disconnect_state]; simp⟩
  | setMaxBackoff now mb =>
    exact ⟨by dsimp only [apply_ev]; rw [rconn_set_max_backoff_probe]; exact hp,
           by dsimp only [apply_ev]; rw [rconn_set_max_backoff_state]; exact hs⟩
  | setProbeInterval p =>
    have hp0 : p = 0 := by simpa [ev_ok] using he
    subst hp0
    exact ⟨by dsimp only [apply_ev]; simp [rconn_set_probe_interval],
           by dsimp only [apply_ev]; simpa [rconn_set_probe_interval] using hs⟩

theorem run_events_quiet (evs : List Ev) (s : Rconn × Counters)
    (hp : s.1.probe_interval = 0) (hs : s.1.state ≠ State.IDLE)
    (he : evs.all ev_ok = true) :
    (run_events evs s).1.probe_interval = 0 ∧
    (run_events evs s).1.state ≠ State.IDLE := by
  induction evs generalizing s with
  | nil => exact ⟨hp, hs⟩
  | cons e es ih =>
    rw [List.all_cons, Bool.and_eq_true] at he
    have h := apply_ev_quiet e s hp hs he.1
    exact ih _ h.1 h.2 he.2

@[simp]
theorem state_transition_backoff (now : Int) (rc : Rconn) (s : State) :
    (state_transition now rc s).backoff = rc.backoff := rfl

@[simp]
theorem state_transition_backoff_deadline (now : Int) (rc : Rconn) (s : State) :
    (state_transition now rc s).backoff_deadline = rc.backoff_deadline := rfl

@[simp]
theorem state_transition_local_ip (now : Int) (rc : Rconn) (s : State) :
    (state_transition now rc s).local_ip = rc.local_ip := rfl

@[simp]
theorem state_transition_remote_ip (now : Int) (rc : Rconn) (s : State) :
    (state_transition now rc s).remote_ip = rc.remote_ip := rfl

@[simp]
theorem state_transition_remote_port (now : Int) (rc : Rconn) (s : State) :
    (state_transition now rc s).remote_port = rc.remote_port := rfl

@[simp]
theorem state_transition_last_admitted (now : Int) (rc : Rconn) (s : State) :
    (state_transition now rc s).last_admitted = rc.last_admitted := rfl

@[simp]
theorem question_connectivity_backoff (now : Int) (rc : Rconn) :
    (question_connectivity now rc).backoff = rc.backoff := by
  unfold question_connectivity; split <;> rfl

@[simp]
theorem question_connectivity_backoff_deadline (now : Int) (rc : Rconn) :
    (question_connectivity now rc).backoff_deadline = rc.backoff_deadline := by
  unfold question_connectivity; split <;> rfl

@[simp]
theorem question_connectivity_local_ip (now : Int) (rc : Rconn) :
    (question_connectivity now rc).local_ip = rc.local_ip := by
  unfold question_connectivity; split <;> rfl

@[simp]
theorem question_connectivity_remote_ip (now : Int) (rc : Rconn) :
    (question_connectivity now rc).remote_ip = rc.remote_ip := by
  unfold question_connectivity; split <;> rfl

@[simp]
theorem question_connectivity_remote_port (now : Int) (rc : Rconn) :
    (question_connectivity now rc).remote_port = rc.remote_port := by
  unfold question_connectivity; split <;> rfl

/-- The full backoff policy of the reliable branch of `disconnect`, shared
by the claims about the backoff behaviour. -/
theorem disconnect_reliable_spec (now err : Int) (rc : Rconn) (σ : Counters)
    (h : rc.reliable = true) :
    (disconnect now err rc σ).1.backoff =
      (if now ≥ rc.backoff_deadline then 1
       else min rc.max_backoff (max 1 (2 * rc.backoff))) ∧
    (disconnect now err rc σ).1.backoff_deadline =
      now + (disconnect now err rc σ).1.backoff ∧
    (disconnect now err rc σ).1.state = State.BACKOFF := by
  unfold disconnect
  rw [if_pos h]
  dsimp only
  by_cases hm : rc.state = State.CONNECTING ∨ rc.state = State.ACTIVE ∨
      rc.state = State.IDLE
  · rw [if_pos hm]
    dsimp only [flush_queue]
    split_ifs with hd h60 <;> simp [hd]
  · rw [if_neg hm]
    dsimp only
    split_ifs with hd h60 <;> simp [hd]

/-! ### Sample states used by the witnesses -/

/-- A concrete reliable rconn sitting in BACKOFF. -/
def sample_backoff : Rconn :=
  { state := State.BACKOFF
    state_entered := 100
    vconn := false
    name := "x"
    reliable := true
    txq := []
    backoff := 2
    max_backoff := 8
    backoff_deadline := 102
    last_received := 90
    last_connected := 90
    packets_sent := 0
    seqno := 3
    probably_admitted := false
    last_admitted := 50
    packets_received := 0
    n_attempted_connections := 2
    n_successful_connections := 1
    creation_time := 0
    total_time_connected := 10
    questionable_connectivity := false
    last_questioned := 0
    probe_interval := 0
    local_ip := 7
    remote_ip := 9
    remote_port := 6633
    monitors := [] }

/-- A concrete reliable rconn sitting in ACTIVE with a live transport. -/
def sample_active : Rconn :=
  { sample_backoff with state := State.ACTIVE, vconn := true, backoff := 1,
                        probe_interval := 5, last_connected := 95 }

/-- A concrete reliable rconn sitting in CONNECTING. -/
def sample_connecting : Rconn :=
  { sample_backoff with state := State.CONNECTING, vconn := true, backoff := 1,
                        backoff_deadline := 101 }

/-! ### The claims -/

/-- Claim C1: for every reliable rconn on which `disconnect` fires, if
`now ≥ backoff_deadline` then `backoff` is reset to 1, otherwise it
becomes `min(max_backoff, max(1, 2*backoff))`; in both cases
`backoff_deadline` is then `now + backoff` and the state transitions to
BACKOFF. -/
theorem C1_disconnect_backoff_policy (now err : Int) (rc : Rconn) (σ : Counters)
    (h : rc.reliable = true) :
    (disconnect now err rc σ).1.backoff =
      (if now ≥ rc.backoff_deadline then 1
       else min rc.max_backoff (max 1 (2 * rc.backoff))) ∧
    (disconnect now err rc σ).1.backoff_deadline =
      now + (disconnect now err rc σ).1.backoff ∧
    (disconnect now err rc σ).1.state = State.BACKOFF :=
  disconnect_reliable_spec now err rc σ h

/-- Witness for C1 at a concrete healthy disconnect (deadline passed, so
the backoff resets to 1). -/
theorem C1_witness :
    (disconnect 200 0 sample_backoff []).1.backoff =
      (if (200 : Int) ≥ sample_backoff.backoff_deadline then 1
       else min sample_backoff.max_backoff (max 1 (2 * sample_backoff.backoff))) ∧
    (disconnect 200 0 sample_backoff []).1.backoff_deadline =
      200 + (disconnect 200 0 sample_backoff []).1.backoff ∧
    (disconnect 200 0 sample_backoff []).1.state = State.BACKOFF :=
  C1_disconnect_backoff_policy 200 0 sample_backoff [] (by decide)

/-- Claim C2: for every rconn with `probe_interval = 0`, the ACTIVE
inactivity timeout never fires and the IDLE exit timeout never fires:
starting from creation with probing disabled, under any sequence of API
calls and clock advances (realistic clocks, probing kept disabled) the
rconn is never in IDLE — so the IDLE exit timeout cannot fire — and in
ACTIVE `timed_out` is always false. -/
theorem C2_probe_disabled_no_timeouts (t0 mb : Int) (evs : List Ev)
    (σ : Counters) (he : evs.all ev_ok = true) :
    (run_events evs (rconn_create t0 0 mb, σ)).1.state ≠ State.IDLE ∧
    (∀ (rc : Rconn) (now : Int), rc.probe_interval = 0 →
      rc.state = State.ACTIVE → now < (U32MAX : Int) →
      timed_out now rc = false) := by
  constructor
  · refine (run_events_quiet evs _ ?_ ?_ he).2
    · simp [rconn_create, rconn_set_probe_interval]
    · simp [rconn_create, rconn_set_probe_interval]
  · exact fun rc now hp hs hn => timed_out_ACTIVE_probe_disabled now rc hp hs hn

/-- Witness for C2: a concrete run (reconnect succeeds, then the
connection completes and two ACTIVE iterations pass) never reaches IDLE,
and a concrete ACTIVE rconn with probing disabled is not timed out even
far beyond its entry time. -/
theorem C2_witness :
    (run_events
        [Ev.run [⟨103, some ⟨1, 2, 3⟩, 0, [], []⟩, ⟨103, none, 0, [], []⟩],
         Ev.run [⟨4000, none, 0, [], []⟩]]
        (rconn_create 0 0 8, [])).1.state ≠ State.IDLE ∧
    timed_out 4000 { sample_active with probe_interval := 0 } = false :=
  ⟨(C2_probe_disabled_no_timeouts 0 8
      [Ev.run [⟨103, some ⟨1, 2, 3⟩, 0, [], []⟩, ⟨103, none, 0, [], []⟩],
       Ev.run [⟨4000, none, 0, [], []⟩]] [] (by decide)).1,
   (C2_probe_disabled_no_timeouts 0 8 [] [] (by decide)).2
     { sample_active with probe_interval := 0 } 4000 (by decide) (by decide)
     (by decide)⟩

/-- Claim C3 (code bug): the invariant `1 ≤ backoff ≤ max_backoff` in state
BACKOFF is broken by `rconn_set_max_backoff` with a non-positive argument:
the body clamps `rc->max_backoff` to `MAX(1, max_backoff)` but compares and
assigns the *raw* argument to `rc->backoff`.  At the concrete reachable
configuration below (state BACKOFF, backoff 2, max_backoff 8), calling
`rconn_set_max_backoff(rc, 0)` leaves `state = BACKOFF` with
`max_backoff = 1` but `backoff = 0`, violating `1 ≤ backoff`. -/
theorem C3_set_max_backoff_breaks_invariant :
    (rconn_set_max_backoff 100 sample_backoff 0).state = State.BACKOFF ∧
    (rconn_set_max_backoff 100 sample_backoff 0).max_backoff = 1 ∧
    (rconn_set_max_backoff 100 sample_backoff 0).backoff = 0 ∧
    ¬(1 ≤ (rconn_set_max_backoff 100 sample_backoff 0).backoff ∧
      (rconn_set_max_backoff 100 sample_backoff 0).backoff ≤
        (rconn_set_max_backoff 100 sample_backoff 0).max_backoff) := by
  decide

/-- Claim C4: when CONNECTING times out (the transport's connect still
reporting try-again once `timed_out` holds), the rconn transitions to
BACKOFF with `backoff = min(max_backoff, max(1, 2*backoff))` — the reset
branch cannot fire because `backoff_deadline` is forced to `TIME_MAX`
before `disconnect` — and the new deadline is `now + backoff`. -/
theorem C4_connecting_timeout_doubles (t : Tick) (rc : Rconn) (σ : Counters)
    (hrel : rc.reliable = true) (hagain : t.connectRes = EAGAIN)
    (hto : timed_out t.now rc = true) (hnow : t.now < TIME_MAX) :
    (run_CONNECTING t rc σ).1.state = State.BACKOFF ∧
    (run_CONNECTING t rc σ).1.backoff =
      min rc.max_backoff (max 1 (2 * rc.backoff)) ∧
    (run_CONNECTING t rc σ).1.backoff_deadline =
      t.now + (run_CONNECTING t rc σ).1.backoff := by
  have hbranch : run_CONNECTING t rc σ =
      disconnect t.now 0 { rc with backoff_deadline := TIME_MAX } σ := by
    unfold run_CONNECTING
    rw [hagain, if_neg (by decide : ¬(EAGAIN = (0 : Int))),
        if_neg (by simp : ¬(EAGAIN ≠ EAGAIN)), if_pos hto]
  obtain ⟨hb, hd, hs⟩ := disconnect_reliable_spec t.now 0
    { rc with backoff_deadline := TIME_MAX } σ (by simpa using hrel)
  rw [hbranch]
  refine ⟨hs, ?_, hd⟩
  rw [hb, if_neg (by simpa using not_le.mpr hnow)]

/-- Witness for C4 at a concrete timed-out CONNECTING attempt. -/
theorem C4_witness :
    (run_CONNECTING ⟨101, none, EAGAIN, [], []⟩ sample_connecting []).1.state =
      State.BACKOFF ∧
    (run_CONNECTING ⟨101, none, EAGAIN, [], []⟩ sample_connecting []).1.backoff =
      min sample_connecting.max_backoff (max 1 (2 * sample_connecting.backoff)) ∧
    (run_CONNECTING ⟨101, none, EAGAIN, [], []⟩ sample_connecting []).1.backoff_deadline =
      101 + (run_CONNECTING ⟨101, none, EAGAIN, [], []⟩ sample_connecting []).1.backoff :=
  C4_connecting_timeout_doubles ⟨101, none, EAGAIN, [], []⟩ sample_connecting []
    (by decide) (by decide) (by decide) (by decide)

/-- Claim C5: `state_transition` increases `seqno` by exactly 1 precisely
when the transition crosses the ACTIVE/non-ACTIVE boundary and leaves it
unchanged otherwise (below the `unsigned int` wrap), so `seqno` parity
changes if and only if that boundary is crossed. -/
theorem C5_seqno_parity (now : Int) (rc : Rconn) (s : State)
    (h : rc.seqno + 1 < 2 ^ 32) :
    ((state_transition now rc s).seqno =
      if (decide (rc.state = State.ACTIVE)) ≠ (decide (s = State.ACTIVE))
      then rc.seqno + 1 else rc.seqno) ∧
    ((state_transition now rc s).seqno % 2 ≠ rc.seqno % 2 ↔
      (decide (rc.state = State.ACTIVE)) ≠ (decide (s = State.ACTIVE))) := by
  have hseq : (state_transition now rc s).seqno =
      (rc.seqno + (if (decide (rc.state = State.ACTIVE)) ≠
                      (decide (s = State.ACTIVE)) then 1 else 0)) % 2 ^ 32 := rfl
  by_cases hc : (decide (rc.state = State.ACTIVE)) ≠ (decide (s = State.ACTIVE))
  · have h1 : (state_transition now rc s).seqno = rc.seqno + 1 := by
      rw [hseq, if_pos hc]
      exact Nat.mod_eq_of_lt h
    refine ⟨by rw [h1, if_pos hc], ?_⟩
    rw [h1]
    exact ⟨fun _ => hc, fun _ => by omega⟩
  · have h1 : (state_transition now rc s).seqno = rc.seqno := by
      rw [hseq, if_neg hc, Nat.add_zero]
      exact Nat.mod_eq_of_lt (by omega)
    refine ⟨by rw [h1, if_neg hc], ?_⟩
    rw [h1]
    simp [hc]

/-- Witness for C5 at a concrete boundary-crossing transition
(BACKOFF to ACTIVE at seqno 3). -/
theorem C5_witness :
    ((state_transition 100 sample_backoff State.ACTIVE).seqno =
      if (decide (sample_backoff.state = State.ACTIVE)) ≠
         (decide (State.ACTIVE = State.ACTIVE))
      then sample_backoff.seqno + 1 else sample_backoff.seqno) ∧
    ((state_transition 100 sample_backoff State.ACTIVE).seqno % 2 ≠
        sample_backoff.seqno % 2 ↔
      (decide (sample_backoff.state = State.ACTIVE)) ≠
        (decide (State.ACTIVE = State.ACTIVE))) :=
  C5_seqno_parity 100 sample_backoff State.ACTIVE (by decide)

/-- Claim C6: in any non-connected state, `rconn_send` returns `ENOTCONN`,
the caller retains ownership of the buffer (`consumed = false`), and the
rconn and the counter store are completely unchanged: nothing is enqueued,
no monitor copy is made, no counter is incremented. -/
theorem C6_send_not_connected (sc : Int) (mcs : List Int) (now : Int)
    (rc : Rconn) (σ : Counters) (b : Ofpbuf) (cnt : Option Nat)
    (h : is_connected_state rc.state = false) :
    rconn_send sc mcs now rc σ b cnt = ⟨ENOTCONN, rc, σ, false⟩ := by
  simp [rconn_send, rconn_is_connected, h]

/-- Witness for C6 at a concrete BACKOFF rconn. -/
theorem C6_witness :
    rconn_send 0 [] 100 sample_backoff [4] ⟨[1, 0]⟩ (some 0) =
      ⟨ENOTCONN, sample_backoff, [4], false⟩ :=
  C6_send_not_connected 0 [] 100 sample_backoff [4] ⟨[1, 0]⟩ (some 0) (by decide)

theorem rconn_send_consumed_eq (sc : Int) (mcs : List Int) (now : Int)
    (rc : Rconn) (σ : Counters) (b : Ofpbuf) (cnt : Option Nat) :
    (rconn_send sc mcs now rc σ b cnt).consumed = true ∨
    ((rconn_send sc mcs now rc σ b cnt).retval = ENOTCONN ∧
     (rconn_send sc mcs now rc σ b cnt).consumed = false) := by
  unfold rconn_send
  dsimp only
  split_ifs <;> simp

/-- Claim C7: `rconn_send_with_limit` with `counter.n` at or above the
limit returns `EAGAIN` with the buffer deleted and the rconn and counter
untouched; when the inner send fails, the buffer is likewise deleted and
the error returned; and the buffer is consumed on every path. -/
theorem C7_send_with_limit_consumes (sc : Int) (mcs : List Int) (now : Int)
    (rc : Rconn) (σ : Counters) (b : Ofpbuf) (c : Nat) (queue_limit : Int) :
    (0 ≤ queue_limit → queue_limit < 2 ^ 31 →
      (σ.getD c 0 : Int) ≥ queue_limit →
      rconn_send_with_limit sc mcs now rc σ b (some c) queue_limit =
        some ⟨EAGAIN, rc, σ, true⟩) ∧
    (σ.getD c 0 < toU32 queue_limit →
      (rconn_send sc mcs now rc σ b (some c)).retval ≠ 0 →
      rconn_send_with_limit sc mcs now rc σ b (some c) queue_limit =
        some ⟨(rconn_send sc mcs now rc σ b (some c)).retval,
              (rconn_send sc mcs now rc σ b (some c)).rconn,
              (rconn_send sc mcs now rc σ b (some c)).counters, true⟩) ∧
    (∀ r, rconn_send_with_limit sc mcs now rc σ b (some c) queue_limit =
      some r → r.consumed = true) := by
  refine ⟨?_, ?_, ?_⟩
  · intro h0 h31 hge
    have hglue : σ.getD c 0 ≥ toU32 queue_limit := by
      unfold toU32
      have e32 : ((2 : Int) ^ 32) = 4294967296 := by norm_num
      have e31 : ((2 : Int) ^ 31) = 2147483648 := by norm_num
      rw [e32]
      rw [e31] at h31
      omega
    unfold rconn_send_with_limit
    dsimp only
    rw [if_pos hglue]
  · intro hlt hr
    unfold rconn_send_with_limit
    dsimp only
    rw [if_neg (not_le.mpr hlt), if_pos hr]
  · intro r hr
    unfold rconn_send_with_limit at hr
    dsimp only at hr
    split_ifs at hr with h1 h2
    · rw [Option.some_inj] at hr
      subst hr
      rfl
    · rw [Option.some_inj] at hr
      subst hr
      rfl
    · rw [Option.some_inj] at hr
      subst hr
      rcases rconn_send_consumed_eq sc mcs now rc σ b (some c) with hcons | ⟨he, _⟩
      · exact hcons
      · exfalso
        push_neg at h2
        rw [h2] at he
        exact absurd he (by decide)

/-- Witness for C7: a concrete over-limit call returns `EAGAIN` with the
buffer consumed and the counter untouched. -/
theorem C7_witness :
    rconn_send_with_limit 0 [] 100 sample_active [5] ⟨[1, 0]⟩ (some 0) 5 =
      some ⟨EAGAIN, sample_active, [5], true⟩ :=
  (C7_send_with_limit_consumes 0 [] 100 sample_active [5] ⟨[1, 0]⟩ 0 5).1
    (by decide) (by decide) (by decide)

/-- Claim C8: on every successful `rconn_recv`, `probably_admitted` is set
to true and `last_admitted` to `now` exactly when the received message's
type byte (offset 1 of the buffer) is admission-signaling — not one of the
ten pre-admission codes, with every type at or above 32 qualifying — or
`probably_admitted` was already set, or `now - last_connected ≥ 30`;
otherwise both fields are unchanged. -/
theorem C8_recv_admission (rr : Except Int Ofpbuf) (mcs : List Int)
    (now : Int) (rc : Rconn) (σ : Counters) (b : Ofpbuf)
    (hconn : rc.state = State.ACTIVE ∨ rc.state = State.IDLE)
    (hok : rr = Except.ok b) :
    (if rc.probably_admitted || is_admitted_msg b ||
        decide (now - rc.last_connected ≥ 30) then
       (rconn_recv rr mcs now rc σ).2.1.probably_admitted = true ∧
       (rconn_recv rr mcs now rc σ).2.1.last_admitted = now
     else
       (rconn_recv rr mcs now rc σ).2.1.probably_admitted =
         rc.probably_admitted ∧
       (rconn_recv rr mcs now rc σ).2.1.last_admitted = rc.last_admitted) ∧
    (∀ t : Nat, 32 ≤ t → is_admitted_type t = true) ∧
    (∀ t : Nat, t < 32 → (is_admitted_type t = false ↔
      t ∈ [OFPT_HELLO, OFPT_ERROR, OFPT_ECHO_REQUEST, OFPT_ECHO_REPLY,
           OFPT_VENDOR, OFPT_FEATURES_REQUEST, OFPT_FEATURES_REPLY,
           OFPT_GET_CONFIG_REQUEST, OFPT_GET_CONFIG_REPLY,
           OFPT_SET_CONFIG])) ∧
    is_admitted_msg b = is_admitted_type (b.data.getD 1 0) := by
  refine ⟨?_, ?_, by decide, rfl⟩
  · subst hok
    unfold rconn_recv
    rw [if_pos hconn]
    dsimp only [copy_to_monitor]
    split_ifs with hcond hidle hidle <;>
      simp_all [state_transition, is_connected_state]
  · intro t ht
    unfold is_admitted_type
    rw [if_neg (fun hco => absurd hco.1 (by omega))]

/-- Witness for C8: receiving a type-10 message (admission-signaling) on a
concrete ACTIVE rconn sets `probably_admitted` and stamps `last_admitted`. -/
theorem C8_witness :
    (rconn_recv (Except.ok ⟨[1, 10]⟩) [] 100 sample_active []).2.1.probably_admitted =
      true ∧
    (rconn_recv (Except.ok ⟨[1, 10]⟩) [] 100 sample_active []).2.1.last_admitted =
      100 := by
  have h := (C8_recv_admission (Except.ok ⟨[1, 10]⟩) [] 100 sample_active []
    ⟨[1, 10]⟩ (Or.inl (by decide)) rfl).1
  rw [if_pos (by decide)] at h
  exact h

/-- Claim C9: on a reliable rconn, the internal `disconnect` (the
transition to BACKOFF) leaves the cached `local_ip`, `remote_ip` and
`remote_port` unchanged; they are refreshed only by a successful
`vconn_open` inside `reconnect` and cleared only by `set_vconn_name`. -/
theorem C9_disconnect_keeps_addresses (now err : Int) (rc : Rconn)
    (σ : Counters) (h : rc.reliable = true) :
    ((disconnect now err rc σ).1.local_ip = rc.local_ip ∧
     (disconnect now err rc σ).1.remote_ip = rc.remote_ip ∧
     (disconnect now err rc σ).1.remote_port = rc.remote_port) ∧
    (∀ (info : NetInfo) (n2 : Int) (rc2 : Rconn) (σ2 : Counters),
      (reconnect (some info) n2 rc2 σ2).1.local_ip = info.local_ip ∧
      (reconnect (some info) n2 rc2 σ2).1.remote_ip = info.remote_ip ∧
      (reconnect (some info) n2 rc2 σ2).1.remote_port = info.remote_port) ∧
    (∀ (rc3 : Rconn) (nm : String),
      (set_vconn_name rc3 nm).local_ip = 0 ∧
      (set_vconn_name rc3 nm).remote_ip = 0 ∧
      (set_vconn_name rc3 nm).remote_port = 0) := by
  refine ⟨?_, ?_, fun rc3 nm => ⟨rfl, rfl, rfl⟩⟩
  · unfold disconnect
    rw [if_pos h]
    dsimp only
    split_ifs <;> simp [flush_queue]
  · intro info n2 rc2 σ2
    unfold reconnect
    dsimp only
    simp

/-- Witness for C9 at a concrete reliable disconnect out of ACTIVE. -/
theorem C9_witness :
    (disconnect 200 5 sample_active []).1.local_ip = sample_active.local_ip ∧
    (disconnect 200 5 sample_active []).1.remote_ip = sample_active.remote_ip ∧
    (disconnect 200 5 sample_active []).1.remote_port =
      sample_active.remote_port :=
  (C9_disconnect_keeps_addresses 200 5 sample_active [] (by decide)).1

theorem foldl_dec_none (l : List (Ofpbuf × Option Nat)) (σ : Counters)
    (h : ∀ e ∈ l, e.2 = none) :
    l.foldl (fun s e => match e.2 with
                        | some c => counter_dec s c
                        | none => s) σ = σ := by
  induction l generalizing σ with
  | nil => rfl
  | cons e l ih =>
    have he : e.2 = none := h e (by simp)
    rw [List.foldl_cons, he]
    exact ih σ (fun x hx => h x (by simp [hx]))

theorem disconnect_counters_none (now err : Int) (rc : Rconn) (σ : Counters)
    (h : ∀ e ∈ rc.txq, e.2 = none) : (disconnect now err rc σ).2 = σ := by
  unfold disconnect
  by_cases hrel : rc.reliable
  · rw [if_pos hrel]
    dsimp only
    split_ifs <;>
      first
        | rfl
        | (unfold flush_queue; dsimp only; exact foldl_dec_none _ σ h)
  · rw [if_neg hrel]

theorem rconn_send_none_counters (sc : Int) (mcs : List Int) (now : Int)
    (rc : Rconn) (σ : Counters) (b : Ofpbuf) :
    (rconn_send sc mcs now rc σ b none).counters = σ := by
  unfold rconn_send
  dsimp only
  split_ifs with hc hlen
  · unfold try_send
    dsimp only [copy_to_monitor]
    dsimp only [copy_to_monitor] at hlen
    have htx : rc.txq = [] := by
      cases h' : rc.txq with
      | nil => rfl
      | cons e rest => rw [h'] at hlen; simp at hlen
    rw [htx]
    dsimp only [List.nil_append]
    split_ifs
    · exact disconnect_counters_none now sc _ σ (by simp)
    · rfl
    · rfl
  · rfl
  · rfl

/-- Claim C10: `rconn_send_with_limit` requires a present counter — it
dereferences `counter->n` before any other check, so the null-counter
branch is an error (`none`) and is avoided exactly when the counter is
present — while `rconn_send` accepts a missing counter (the increment is
guarded, so the counter store is untouched). -/
theorem C10_send_with_limit_requires_counter (sc : Int) (mcs : List Int)
    (now : Int) (rc : Rconn) (σ : Counters) (b : Ofpbuf)
    (queue_limit : Int) :
    rconn_send_with_limit sc mcs now rc σ b none queue_limit = none ∧
    (∀ c : Nat, (rconn_send_with_limit sc mcs now rc σ b (some c)
      queue_limit).isSome = true) ∧
    (rconn_send sc mcs now rc σ b none).counters = σ := by
  refine ⟨rfl, ?_, rconn_send_none_counters sc mcs now rc σ b⟩
  intro c
  unfold rconn_send_with_limit
  dsimp only
  split_ifs <;> rfl
